import Mathlib

/-!
Verification of the step-up multi-factor authentication subsystem of the
motoka backend (src/services/twoFactor.service.js, src/controllers and
src/middleware/authenticate.js), shallowly embedded in Lean 4.

The database row `profiles` is modelled by the structure `Profile`; every
service function is translated as an explicit state transformer
`Profile → ... → Profile × Except String α`, where the returned `Profile`
is the database state after the call (a thrown JS `Error` corresponds to
`Except.error msg` and leaves the state unchanged, because each service
function performs its clearing `update` only after all checks pass).
Timestamps are integers (milliseconds since epoch); `new Date(x)` applied
to a SQL NULL yields the epoch, modelled by `jsDate`.  JavaScript string
truthiness (`!s` is true for both `null` and `""`) is modelled by
`strTruthy`.  Randomness (`Math.random`) is injected as a stream
`r : Nat → Nat` of pre-drawn indices.
-/

/-- The columns of the `profiles` row that the 2FA subsystem reads and
writes (see the `update`/`select` column lists in twoFactor.service.js). -/
structure Profile where
  two_factor_enabled : Bool
  two_factor_type : Option String
  two_factor_secret : Option String
  two_factor_recovery_codes : Option (List String)
  two_factor_confirmed_at : Option Int
  two_factor_email_code : Option String
  two_factor_email_expires_at : Option Int
  two_factor_login_token : Option String
  two_factor_login_expires_at : Option Int
deriving DecidableEq

/-- JavaScript truthiness of a nullable string: `!s` is true exactly when
`s` is `null` or the empty string. -/
def strTruthy : Option String → Bool
  | none => false
  | some s => s != ""

/-- Semantics of `new Date(x)` on a nullable millisecond timestamp: `new Date(null)` in
JavaScript is the epoch (time 0). -/
def jsDate : Option Int → Int
  | none => 0
  | some t => t

/-- Model of JavaScript `String.prototype.toUpperCase` (the code base only
ever uppercases ASCII alphanumeric strings): uppercase every character. -/
def jsToUpperCase (s : String) : String :=
  String.mk (s.data.map Char.toUpper)

/-- The alphabet used by `generateToken` in src/utils/idGenerator.js. -/
def tokenChars : String :=
  "ABCDEFGHIJKLMNOPQRSTUVWXYZabcdefghijklmnopqrstuvwxyz0123456789"

/-- Function `generateToken(length)` from src/utils/idGenerator.js: picks `len`
characters of `tokenChars` at the pre-drawn random indices
`r start, r (start+1), ...` (`Math.floor(Math.random() * chars.length)`
always lands in `[0, 61]`, modelled by reducing the drawn number mod 62). -/
def generateToken (r : Nat → Nat) (start len : Nat) : String :=
  String.mk ((List.range len).map fun i =>
    tokenChars.data.getD (r (start + i) % tokenChars.data.length) 'A')

/-- Expression `Array.from({ length: 8 }, () => generateToken(8).toUpperCase())` from
`confirmGoogleAuth`: eight 8-character tokens, each uppercased; the j-th
token consumes the random draws `r (8*j), ..., r (8*j+7)`. -/
def generateRecoveryCodes (r : Nat → Nat) : List String :=
  (List.range 8).map fun j => jsToUpperCase (generateToken r (8 * j) 8)

/-- Modelled from the spec: `speakeasy.totp.verify` (the TOTP verifier of
the external speakeasy library, not part of this repository) "computes the
time-step counter from the current time (30-second steps) and accepts the
submitted code if it matches the expected code for any step within ±window
of the current step".  `expected secret k` is the (abstract) expected code
of `secret` at time-step counter `k`; `t` is the current time in seconds. -/
def totpVerify (expected : String → Int → String) (secret : String)
    (t : Nat) (window : Nat) (code : String) : Bool :=
  ((List.range (2 * window + 1)).map
    fun (i : Nat) => ((t / 30 : Nat) : Int) - (window : Int) + (i : Int)).any
    fun k => code == expected secret k

/-- Function `verifyGoogleAuthCode(secret, code)` from twoFactor.service.js: calls
`speakeasy.totp.verify` with `window: 2` (60-second tolerance). -/
def verifyGoogleAuthCode (expected : String → Int → String) (secret : String)
    (t : Nat) (code : String) : Bool :=
  totpVerify expected secret t 2 code

/-- Function `confirmGoogleAuth(userId, code)` from twoFactor.service.js: throws if
no secret is stored, throws if the code does not verify, otherwise
generates 8 recovery codes and updates the row (enabled, confirmed_at,
recovery codes), returning the codes. -/
def confirmGoogleAuth (expected : String → Int → String) (r : Nat → Nat)
    (p : Profile) (t : Nat) (nowMs : Int) (code : String) :
    Profile × Except String (List String) :=
  if strTruthy p.two_factor_secret = false then
    (p, .error "2FA not initialized. Please start setup first.")
  else if verifyGoogleAuthCode expected (p.two_factor_secret.getD "") t code = false then
    (p, .error "Invalid verification code")
  else
    let recoveryCodes := generateRecoveryCodes r
    ({ p with
        two_factor_enabled := true
        two_factor_confirmed_at := some nowMs
        two_factor_recovery_codes := some recoveryCodes },
      .ok recoveryCodes)

/-- Function `generateEmail2FACode(userId)` from twoFactor.service.js: stores the
freshly generated OTP (injected here as `code`) with a 10-minute expiry and
returns it. -/
def generateEmail2FACode (p : Profile) (now : Int) (code : String) :
    Profile × String :=
  ({ p with
      two_factor_email_code := some code
      two_factor_email_expires_at := some (now + 10 * 60 * 1000) },
    code)

/-- Function `verifyEmail2FACode(userId, code)` from twoFactor.service.js: throws
`No 2FA code pending` if no code is stored, `2FA code has expired` if the
stored expiry is before now, `Invalid 2FA code` if the stored code differs;
otherwise clears the code and its expiry and returns true. -/
def verifyEmail2FACode (p : Profile) (now : Int) (code : String) :
    Profile × Except String Bool :=
  if strTruthy p.two_factor_email_code = false then
    (p, .error "No 2FA code pending")
  else if jsDate p.two_factor_email_expires_at < now then
    (p, .error "2FA code has expired")
  else if p.two_factor_email_code ≠ some code then
    (p, .error "Invalid 2FA code")
  else
    ({ p with
        two_factor_email_code := none
        two_factor_email_expires_at := none },
      .ok true)

/-- Function `disable2FA(userId)` from twoFactor.service.js: a single `update` that
resets enabled, type, secret, recovery codes, confirmed_at, email code and
email expiry.  (The columns `two_factor_login_token` and
`two_factor_login_expires_at` are not in its column list.) -/
def disable2FA (p : Profile) : Profile :=
  { p with
      two_factor_enabled := false
      two_factor_type := none
      two_factor_secret := none
      two_factor_recovery_codes := none
      two_factor_confirmed_at := none
      two_factor_email_code := none
      two_factor_email_expires_at := none }

/-- Function `create2FALoginToken(userId)` from twoFactor.service.js: stores the
freshly generated 64-character token (injected here as `tok`) with a
10-minute expiry and returns it. -/
def create2FALoginToken (p : Profile) (now : Int) (tok : String) :
    Profile × String :=
  ({ p with
      two_factor_login_token := some tok
      two_factor_login_expires_at := some (now + 10 * 60 * 1000) },
    tok)

/-- The second half of `verify2FALoginToken(userId, token)`: the checks and
the clearing `update`, performed on the `snapshot` of the row captured by
the initial `select`, while `db` is the database state at the time the
`update` runs.  The clearing `update` is unconditional (it does not
re-check the token), which is what makes the read/clear pair non-atomic. -/
def vltFinish (db snapshot : Profile) (now : Int) (token : String) :
    Profile × Except String Bool :=
  if strTruthy snapshot.two_factor_login_token = false then
    (db, .error "No login pending")
  else if jsDate snapshot.two_factor_login_expires_at < now then
    (db, .error "Login session expired")
  else if snapshot.two_factor_login_token ≠ some token then
    (db, .error "Invalid login token")
  else
    ({ db with
        two_factor_login_token := none
        two_factor_login_expires_at := none },
      .ok true)

/-- Function `verify2FALoginToken(userId, token)` from twoFactor.service.js: a
`select` of the row followed by `vltFinish` on the captured snapshot. -/
def verify2FALoginToken (p : Profile) (now : Int) (token : String) :
    Profile × Except String Bool :=
  vltFinish p p now token

/-- Function `verifyRecoveryCode(userId, code)` from twoFactor.service.js: throws if
the stored recovery-code column is null, uppercases the submitted code,
throws if it is not a member, otherwise filters it out of the array,
persists the reduced array and returns the remaining count. -/
def verifyRecoveryCode (p : Profile) (code : String) :
    Profile × Except String Nat :=
  match p.two_factor_recovery_codes with
  | none => (p, .error "No recovery codes found")
  | some codes =>
    let upperCode := jsToUpperCase code
    if upperCode ∈ codes then
      let remainingCodes := codes.filter fun c => c != upperCode
      ({ p with two_factor_recovery_codes := some remainingCodes },
        .ok remainingCodes.length)
    else
      (p, .error "Invalid recovery code")

/-- The 2FA branch of the `login` controller (auth.controller.js, lines
96-114): when the profile has 2FA enabled, create a temporary login token;
if the method is email, also generate an email code and log it with
`console.log` of the concatenation of the literal prefix, the email and the code.  Returns the new row
state, the emitted log lines and the temp token handed to the client. -/
def loginTwoFABranch (p : Profile) (now : Int) (email tok code : String) :
    Profile × List String × String :=
  let (p1, tempToken) := create2FALoginToken p now tok
  if p.two_factor_type = some "email" then
    let (p2, c) := generateEmail2FACode p1 now code
    (p2, ["2FA Code for " ++ email ++ ": " ++ c], tempToken)
  else
    (p1, [], tempToken)

/-- A cache entry of the in-memory profile cache in
src/middleware/authenticate.js. -/
structure CacheEntry where
  profile : Profile
  expiresAt : Int
deriving DecidableEq

/-- Lookup `profileCache.get(userId)`: the `Map` is modelled as an association
list with at most one binding per key; `find?` returns the binding. -/
def cacheFind (c : List (String × CacheEntry)) (k : String) :
    Option CacheEntry :=
  (c.find? fun e => e.1 == k).map Prod.snd

/-- Deletion `profileCache.delete(userId)`. -/
def cacheDelete (c : List (String × CacheEntry)) (k : String) :
    List (String × CacheEntry) :=
  c.filter fun e => e.1 != k

/-- Function `getCachedProfile(userId)` from src/middleware/authenticate.js: a miss
returns null; a hit whose `expiresAt` is in the past (`Date.now() >
cached.expiresAt`) deletes the entry and returns null; otherwise the cached
profile is returned.  The result pairs the cache state after the call with
the returned value. -/
def getCachedProfile (c : List (String × CacheEntry)) (userId : String)
    (now : Int) : List (String × CacheEntry) × Option Profile :=
  match cacheFind c userId with
  | none => (c, none)
  | some cached =>
    if cached.expiresAt < now then
      (cacheDelete c userId, none)
    else
      (c, some cached.profile)

/-- A profile with every 2FA column null / false. -/
def emptyProfile : Profile :=
  { two_factor_enabled := false
    two_factor_type := none
    two_factor_secret := none
    two_factor_recovery_codes := none
    two_factor_confirmed_at := none
    two_factor_email_code := none
    two_factor_email_expires_at := none
    two_factor_login_token := none
    two_factor_login_expires_at := none }

/-- A fully populated 2FA state: email method enabled with an outstanding
email code and an outstanding login challenge. -/
def pFull : Profile :=
  { two_factor_enabled := true
    two_factor_type := some "email"
    two_factor_secret := some "SECR"
    two_factor_recovery_codes := some ["AAAA1111"]
    two_factor_confirmed_at := some 1
    two_factor_email_code := some "123456"
    two_factor_email_expires_at := some 900000
    two_factor_login_token := some "LTOK"
    two_factor_login_expires_at := some 777000 }

/-- A profile whose stored login challenge is `"AAAA"` expiring at time 5. -/
def pStale : Profile :=
  { emptyProfile with
      two_factor_login_token := some "AAAA"
      two_factor_login_expires_at := some 5 }

/-- A profile with a live login challenge `"TTT"` expiring at time 1000. -/
def pLive : Profile :=
  { emptyProfile with
      two_factor_login_token := some "TTT"
      two_factor_login_expires_at := some 1000 }

/-- A profile with a pending (unconfirmed) TOTP secret. -/
def pPending : Profile :=
  { emptyProfile with
      two_factor_type := some "google"
      two_factor_secret := some "SECR" }

/-- A profile with two recovery codes stored. -/
def pRecovery : Profile :=
  { emptyProfile with
      two_factor_recovery_codes := some ["AAAA1111", "BBBB2222"] }

/-- A profile with a live email code `"654321"` expiring at time 500. -/
def pEmailLive : Profile :=
  { emptyProfile with
      two_factor_email_code := some "654321"
      two_factor_email_expires_at := some 500 }

/-- A one-entry cache whose entry for `"u"` expires at time 5. -/
def cacheOne : List (String × CacheEntry) :=
  [("u", { profile := pFull, expiresAt := 5 })]

/-- The uppercase alphanumeric alphabet: the image of `tokenChars` under
uppercasing, i.e. the characters a recovery code may contain. -/
def upperAlnumChars : List Char :=
  "ABCDEFGHIJKLMNOPQRSTUVWXYZ0123456789".data

/-- C1 (amended): `disable2FA` clears, in a single update, the TOTP
secret, the recovery-code set, the outstanding email code and its expiry,
the confirmation timestamp, the method and the enabled flag — but it leaves
the outstanding step-up challenge (login token and its expiry) untouched. -/
theorem disable2FA_clears_except_login_challenge (p : Profile) :
    (disable2FA p).two_factor_enabled = false ∧
    (disable2FA p).two_factor_type = none ∧
    (disable2FA p).two_factor_secret = none ∧
    (disable2FA p).two_factor_recovery_codes = none ∧
    (disable2FA p).two_factor_confirmed_at = none ∧
    (disable2FA p).two_factor_email_code = none ∧
    (disable2FA p).two_factor_email_expires_at = none ∧
    (disable2FA p).two_factor_login_token = p.two_factor_login_token ∧
    (disable2FA p).two_factor_login_expires_at = p.two_factor_login_expires_at :=
  ⟨rfl, rfl, rfl, rfl, rfl, rfl, rfl, rfl, rfl⟩

/-- C1 (counterexample): on a profile with an outstanding login challenge,
`disable2FA` leaves the challenge token and its expiry stored, so not all
second-factor state is cleared, contrary to the claim. -/
theorem disable2FA_retains_login_challenge :
    pFull.two_factor_login_token = some "LTOK" ∧
    (disable2FA pFull).two_factor_login_token = some "LTOK" ∧
    (disable2FA pFull).two_factor_login_expires_at = some 777000 :=
  ⟨rfl, rfl, rfl⟩

/-- C2: on the email-2FA branch of the `login` controller the raw one-time
code is written verbatim into a log line (`console.log` at
auth.controller.js line 105), contradicting the requirement that no log
line contains the raw code. -/
theorem login_logs_raw_twofa_code :
    ∃ l ∈ (loginTwoFABranch pFull 0 "user@example.com" "TK64" "123456").2.1,
      ∃ s, l = s ++ "123456" := by
  refine ⟨"2FA Code for user@example.com: 123456", ?_,
    "2FA Code for user@example.com: ", ?_⟩
  · decide
  · rfl

/-- C9: the read and the clearing update of `verify2FALoginToken` are two
separate store operations; in the interleaving where both racing requests
perform their `select` before either performs its `update`, both consume
the same live challenge token successfully, while a sequential second
consumption fails — the single-use invariant is violated under the race. -/
theorem verify2FALoginToken_race_double_success :
    (vltFinish pLive pLive 5 "TTT").2 = Except.ok true ∧
    (vltFinish (vltFinish pLive pLive 5 "TTT").1 pLive 5 "TTT").2 = Except.ok true ∧
    (verify2FALoginToken (verify2FALoginToken pLive 5 "TTT").1 5 "TTT").2 =
      Except.error "No login pending" :=
  ⟨rfl, rfl, rfl⟩

/-- C3 (counterexample): on a stored challenge whose token differs from the
submitted one and whose expiry has passed, `verify2FALoginToken` reports
the expired outcome, not the mismatch outcome the claim requires for a
differing token. -/
theorem verify2FALoginToken_expired_precedence :
    pStale.two_factor_login_token = some "AAAA" ∧
    pStale.two_factor_login_token ≠ some "BBBB" ∧
    (verify2FALoginToken pStale 10 "BBBB").2 = Except.error "Login session expired" ∧
    "Login session expired" ∉ (["No login pending", "Invalid login token"] : List String) := by
  refine ⟨rfl, by decide, rfl, by decide⟩

/-- C3 (amended): `verify2FALoginToken` fails with the no-login-pending
(mismatch) outcome when no challenge is stored; otherwise fails expired
when the current time is past the stored expiry, regardless of whether the
token matches; otherwise fails mismatch when the stored token differs from
the submitted one; otherwise clears the stored challenge and succeeds — so
the challenge is cleared only in the success case. -/
theorem verify2FALoginToken_spec (p : Profile) (now : Int) (tok : String) :
    (strTruthy p.two_factor_login_token = false →
      verify2FALoginToken p now tok = (p, Except.error "No login pending")) ∧
    (strTruthy p.two_factor_login_token = true →
      jsDate p.two_factor_login_expires_at < now →
      verify2FALoginToken p now tok = (p, Except.error "Login session expired")) ∧
    (strTruthy p.two_factor_login_token = true →
      ¬ jsDate p.two_factor_login_expires_at < now →
      p.two_factor_login_token ≠ some tok →
      verify2FALoginToken p now tok = (p, Except.error "Invalid login token")) ∧
    (strTruthy p.two_factor_login_token = true →
      ¬ jsDate p.two_factor_login_expires_at < now →
      p.two_factor_login_token = some tok →
      verify2FALoginToken p now tok =
        ({ p with two_factor_login_token := none, two_factor_login_expires_at := none },
          Except.ok true)) := by
  refine ⟨fun h1 => ?_, fun h1 h2 => ?_, fun h1 h2 h3 => ?_, fun h1 h2 h3 => ?_⟩
  · simp [verify2FALoginToken, vltFinish, h1]
  · simp [verify2FALoginToken, vltFinish, h1, h2]
  · simp [verify2FALoginToken, vltFinish, h1, h2, h3]
  · rw [h3] at h1
    simp [verify2FALoginToken, vltFinish, h3, h1, h2]

/-- Witness for `verify2FALoginToken_spec`: each of its four branches
evaluated at a concrete profile, time and token. -/
theorem verify2FALoginToken_spec_witness :
    verify2FALoginToken emptyProfile 0 "X" = (emptyProfile, Except.error "No login pending") ∧
    verify2FALoginToken pStale 10 "AAAA" = (pStale, Except.error "Login session expired") ∧
    verify2FALoginToken pStale 3 "BBBB" = (pStale, Except.error "Invalid login token") ∧
    verify2FALoginToken pStale 3 "AAAA" =
      ({ pStale with two_factor_login_token := none, two_factor_login_expires_at := none },
        Except.ok true) :=
  ⟨(verify2FALoginToken_spec emptyProfile 0 "X").1 rfl,
   (verify2FALoginToken_spec pStale 10 "AAAA").2.1 rfl (by decide),
   (verify2FALoginToken_spec pStale 3 "BBBB").2.2.1 rfl (by decide) (by decide),
   (verify2FALoginToken_spec pStale 3 "AAAA").2.2.2 rfl (by decide) rfl⟩

/-- C4: `verifyEmail2FACode` returns the none-outstanding outcome when no
code is stored, the expired outcome when the current time is past the
stored expiry regardless of whether the submitted value is correct, the
mismatch outcome when a stored unexpired code differs from the submitted
value, and on success clears the stored code and its expiry. -/
theorem verifyEmail2FACode_spec (p : Profile) (now : Int) (code : String) :
    (strTruthy p.two_factor_email_code = false →
      verifyEmail2FACode p now code = (p, Except.error "No 2FA code pending")) ∧
    (strTruthy p.two_factor_email_code = true →
      jsDate p.two_factor_email_expires_at < now →
      verifyEmail2FACode p now code = (p, Except.error "2FA code has expired")) ∧
    (strTruthy p.two_factor_email_code = true →
      ¬ jsDate p.two_factor_email_expires_at < now →
      p.two_factor_email_code ≠ some code →
      verifyEmail2FACode p now code = (p, Except.error "Invalid 2FA code")) ∧
    (strTruthy p.two_factor_email_code = true →
      ¬ jsDate p.two_factor_email_expires_at < now →
      p.two_factor_email_code = some code →
      verifyEmail2FACode p now code =
        ({ p with two_factor_email_code := none, two_factor_email_expires_at := none },
          Except.ok true)) := by
  refine ⟨fun h1 => ?_, fun h1 h2 => ?_, fun h1 h2 h3 => ?_, fun h1 h2 h3 => ?_⟩
  · simp [verifyEmail2FACode, h1]
  · simp [verifyEmail2FACode, h1, h2]
  · simp [verifyEmail2FACode, h1, h2, h3]
  · rw [h3] at h1
    simp [verifyEmail2FACode, h3, h1, h2]

/-- Witness for `verifyEmail2FACode_spec`: its four branches evaluated at
concrete states, times and codes; the expired branch is exercised with the
correct stored value, showing expiry wins regardless of correctness. -/
theorem verifyEmail2FACode_spec_witness :
    verifyEmail2FACode emptyProfile 0 "1" = (emptyProfile, Except.error "No 2FA code pending") ∧
    verifyEmail2FACode pEmailLive 501 "654321" = (pEmailLive, Except.error "2FA code has expired") ∧
    verifyEmail2FACode pEmailLive 400 "000000" = (pEmailLive, Except.error "Invalid 2FA code") ∧
    verifyEmail2FACode pEmailLive 400 "654321" =
      ({ pEmailLive with two_factor_email_code := none, two_factor_email_expires_at := none },
        Except.ok true) :=
  ⟨(verifyEmail2FACode_spec emptyProfile 0 "1").1 rfl,
   (verifyEmail2FACode_spec pEmailLive 501 "654321").2.1 rfl (by decide),
   (verifyEmail2FACode_spec pEmailLive 400 "000000").2.2.1 rfl (by decide) (by decide),
   (verifyEmail2FACode_spec pEmailLive 400 "654321").2.2.2 rfl (by decide) rfl⟩

/-- C10: when `verifyEmail2FACode` fails, the stored email code and its
expiry are left unchanged; the stored state is modified only on a
successful verification, and then exactly by clearing the code and its
expiry. -/
theorem verifyEmail2FACode_failure_preserves (p : Profile) (now : Int) (code : String) :
    (∀ e, (verifyEmail2FACode p now code).2 = Except.error e →
      (verifyEmail2FACode p now code).1 = p) ∧
    (∀ b, (verifyEmail2FACode p now code).2 = Except.ok b →
      (verifyEmail2FACode p now code).1 =
        { p with two_factor_email_code := none, two_factor_email_expires_at := none }) := by
  refine ⟨?_, ?_⟩ <;> · unfold verifyEmail2FACode; split_ifs <;> simp

/-- Witness for `verifyEmail2FACode_failure_preserves`: a failing call (the
expired branch) leaves the row unchanged, a successful call clears the
stored code and expiry. -/
theorem verifyEmail2FACode_failure_preserves_witness :
    (verifyEmail2FACode pEmailLive 501 "654321").1 = pEmailLive ∧
    (verifyEmail2FACode pEmailLive 400 "654321").1 =
      { pEmailLive with two_factor_email_code := none, two_factor_email_expires_at := none } :=
  ⟨(verifyEmail2FACode_failure_preserves pEmailLive 501 "654321").1 "2FA code has expired" rfl,
   (verifyEmail2FACode_failure_preserves pEmailLive 400 "654321").2 true rfl⟩

/-- On a duplicate-free list, filtering one member out shortens the list by
exactly one. -/
theorem length_filter_bne_of_nodup (l : List String) (u : String)
    (hn : l.Nodup) (hm : u ∈ l) :
    (l.filter fun c => c != u).length + 1 = l.length := by
  induction l with
  | nil => cases hm
  | cons a t ih =>
    rcases List.nodup_cons.mp hn with ⟨ha, ht⟩
    rcases List.mem_cons.mp hm with h | h
    · subst h
      have hself : (t.filter fun c => c != u) = t := by
        apply List.filter_eq_self.mpr
        intro x hx
        rw [bne_iff_ne]
        rintro rfl
        exact ha hx
      simp [List.filter_cons, hself]
    · have hau : (a != u) = true := by
        rw [bne_iff_ne]
        rintro rfl
        exact ha h
      have ih' := ih ht h
      simp only [List.filter_cons, hau, if_pos, List.length_cons]
      omega

/-- C5: on a duplicate-free stored recovery-code set of N members,
`verifyRecoveryCode` (membership checked after uppercasing the submitted
code) on a member persists a set of exactly N−1 members no longer
containing the consumed code and returns the new remaining count; a second
submission of the same code then fails, and submission of a non-member
fails leaving the stored set unchanged. -/
theorem verifyRecoveryCode_spec (p : Profile) (codes : List String) (code : String)
    (hstore : p.two_factor_recovery_codes = some codes) (hnd : codes.Nodup) :
    (jsToUpperCase code ∈ codes →
      ∃ remaining,
        verifyRecoveryCode p code =
          ({ p with two_factor_recovery_codes := some remaining }, Except.ok remaining.length) ∧
        remaining.length + 1 = codes.length ∧
        jsToUpperCase code ∉ remaining ∧
        (verifyRecoveryCode { p with two_factor_recovery_codes := some remaining } code).2 =
          Except.error "Invalid recovery code") ∧
    (jsToUpperCase code ∉ codes →
      verifyRecoveryCode p code = (p, Except.error "Invalid recovery code")) := by
  constructor
  · intro hmem
    have hnotmem : jsToUpperCase code ∉ codes.filter fun c => c != jsToUpperCase code := by
      intro hu
      have := List.of_mem_filter hu
      simp at this
    refine ⟨codes.filter fun c => c != jsToUpperCase code, ?_, ?_, hnotmem, ?_⟩
    · simp [verifyRecoveryCode, hstore, hmem]
    · exact length_filter_bne_of_nodup codes _ hnd hmem
    · simp [verifyRecoveryCode, hnotmem]
  · intro hmem
    simp [verifyRecoveryCode, hstore, hmem]

/-- Witness for `verifyRecoveryCode_spec`: consuming `"aaaa1111"` from the
two-element stored set leaves one code, a repeat submission fails, and a
non-member submission fails without changing the set. -/
theorem verifyRecoveryCode_spec_witness :
    verifyRecoveryCode pRecovery "aaaa1111" =
      ({ pRecovery with two_factor_recovery_codes := some ["BBBB2222"] }, Except.ok 1) ∧
    (verifyRecoveryCode { pRecovery with two_factor_recovery_codes := some ["BBBB2222"] }
      "aaaa1111").2 = Except.error "Invalid recovery code" ∧
    verifyRecoveryCode pRecovery "cccc0000" = (pRecovery, Except.error "Invalid recovery code") :=
  ⟨rfl, rfl,
   (verifyRecoveryCode_spec pRecovery ["AAAA1111", "BBBB2222"] "cccc0000" rfl
     (by decide)).2 (by decide)⟩

/-- Every character a `generateToken` draw can produce becomes, after
uppercasing, an uppercase alphanumeric character. -/
theorem tokenChar_upper_mem (i : Nat) :
    Char.toUpper (tokenChars.data.getD (i % tokenChars.data.length) 'A') ∈ upperAlnumChars := by
  have hall : ∀ j : Fin 62,
      Char.toUpper (tokenChars.data.getD j.val 'A') ∈ upperAlnumChars := by decide
  have hlt : i % tokenChars.data.length < 62 := by
    have h0 : (0 : Nat) < tokenChars.data.length := by decide
    have h62 : tokenChars.data.length = 62 := by decide
    exact h62 ▸ Nat.mod_lt _ h0
  exact hall ⟨i % tokenChars.data.length, hlt⟩

/-- An uppercased 8-draw token is an 8-character string. -/
theorem length_recovery_token (r : Nat → Nat) (start : Nat) :
    (jsToUpperCase (generateToken r start 8)).length = 8 := by
  show ((((List.range 8).map _).map Char.toUpper)).length = 8
  simp

/-- C6 (amended): with a pending secret stored and a code that verifies
against it, `confirmGoogleAuth` returns exactly 8 recovery codes (not
necessarily distinct), each an 8-character uppercase alphanumeric string,
persists them and marks the factor confirmed and enabled; with no pending
secret stored it fails with the not-initialized error. -/
theorem confirmGoogleAuth_spec (expected : String → Int → String) (r : Nat → Nat)
    (p : Profile) (t : Nat) (nowMs : Int) (code : String) :
    (strTruthy p.two_factor_secret = false →
      confirmGoogleAuth expected r p t nowMs code =
        (p, Except.error "2FA not initialized. Please start setup first.")) ∧
    (strTruthy p.two_factor_secret = true →
      verifyGoogleAuthCode expected (p.two_factor_secret.getD "") t code = true →
      confirmGoogleAuth expected r p t nowMs code =
        ({ p with
            two_factor_enabled := true
            two_factor_confirmed_at := some nowMs
            two_factor_recovery_codes := some (generateRecoveryCodes r) },
          Except.ok (generateRecoveryCodes r)) ∧
      (generateRecoveryCodes r).length = 8 ∧
      ∀ s ∈ generateRecoveryCodes r, s.length = 8 ∧ ∀ ch ∈ s.data, ch ∈ upperAlnumChars) := by
  constructor
  · intro h1
    simp [confirmGoogleAuth, h1]
  · intro h1 h2
    refine ⟨by simp [confirmGoogleAuth, h1, h2], by simp [generateRecoveryCodes], ?_⟩
    intro s hs
    obtain ⟨j, _, rfl⟩ := List.mem_map.mp hs
    refine ⟨length_recovery_token r (8 * j), ?_⟩
    intro ch hch
    obtain ⟨x, hx, rfl⟩ := List.mem_map.mp hch
    obtain ⟨i, _, rfl⟩ := List.mem_map.mp hx
    exact tokenChar_upper_mem _

/-- Witness for `confirmGoogleAuth_spec`: both branches at concrete inputs
(a profile with no secret, and `pPending` with an always-accepting expected
code and the all-zero random stream). -/
theorem confirmGoogleAuth_spec_witness :
    confirmGoogleAuth (fun _ _ => "000000") (fun _ => 0) emptyProfile 60 1000 "000000" =
      (emptyProfile, Except.error "2FA not initialized. Please start setup first.") ∧
    confirmGoogleAuth (fun _ _ => "000000") (fun _ => 0) pPending 60 1000 "000000" =
      ({ pPending with
          two_factor_enabled := true
          two_factor_confirmed_at := some 1000
          two_factor_recovery_codes := some (generateRecoveryCodes fun _ => 0) },
        Except.ok (generateRecoveryCodes fun _ => 0)) ∧
    (generateRecoveryCodes fun _ => 0).length = 8 :=
  ⟨(confirmGoogleAuth_spec (fun _ _ => "000000") (fun _ => 0) emptyProfile 60 1000 "000000").1 rfl,
   ((confirmGoogleAuth_spec (fun _ _ => "000000") (fun _ => 0) pPending 60 1000 "000000").2
     rfl (by decide)).1,
   ((confirmGoogleAuth_spec (fun _ _ => "000000") (fun _ => 0) pPending 60 1000 "000000").2
     rfl (by decide)).2.1⟩

/-- C6 (counterexample): with the all-zero random stream — a value
`Math.random` can approximate arbitrarily closely — `confirmGoogleAuth`
succeeds yet returns eight copies of the same recovery code, so the
returned codes are not pairwise distinct: nothing in the code enforces
distinctness. -/
theorem confirmGoogleAuth_duplicate_codes :
    (confirmGoogleAuth (fun _ _ => "000000") (fun _ => 0) pPending 60 1000 "000000").2 =
      Except.ok (List.replicate 8 "AAAAAAAA") ∧
    ¬ (List.replicate 8 ("AAAAAAAA" : String)).Nodup := by
  exact ⟨rfl, by decide⟩

/-- C7: `verifyGoogleAuthCode` (TOTP verification with `window: 2`)
accepts a submitted code if and only if it equals the expected code of the
secret at some 30-second time step within ±2 steps — i.e. ±60 seconds — of
the step derived from the current time, and hence rejects codes that match
only at steps outside that window. -/
theorem verifyGoogleAuthCode_window (expected : String → Int → String)
    (secret : String) (t : Nat) (code : String) :
    verifyGoogleAuthCode expected secret t code = true ↔
      ∃ k : Int, ((t / 30 : Nat) : Int) - 2 ≤ k ∧ k ≤ ((t / 30 : Nat) : Int) + 2 ∧
        code = expected secret k := by
  unfold verifyGoogleAuthCode totpVerify
  rw [List.any_eq_true]
  constructor
  · rintro ⟨x, hx, hg⟩
    obtain ⟨i, hi, rfl⟩ := List.mem_map.mp hx
    have hi' : i < 5 := by simpa using hi
    have heq := eq_of_beq hg
    push_cast at heq
    exact ⟨((t / 30 : Nat) : Int) - 2 + i, by omega, by omega, heq⟩
  · rintro ⟨k, h1, h2, heq⟩
    have hn : (k - (((t / 30 : Nat) : Int) - 2)).toNat < 2 * 2 + 1 := by omega
    refine ⟨k, List.mem_map.mpr
      ⟨(k - (((t / 30 : Nat) : Int) - 2)).toNat, List.mem_range.mpr hn, ?_⟩, ?_⟩
    · push_cast
      omega
    · rw [heq]
      exact beq_self_eq_true _

/-- Deletion `profileCache.delete(userId)` really removes the binding: a lookup of
the deleted key in the resulting cache finds nothing. -/
theorem cacheFind_cacheDelete (c : List (String × CacheEntry)) (k : String) :
    cacheFind (cacheDelete c k) k = none := by
  induction c with
  | nil => rfl
  | cons a t ih =>
    by_cases h : a.1 = k
    · have hb : (a.1 != k) = false := by simp [h]
      simp only [cacheDelete, List.filter_cons, hb, if_false, Bool.false_eq_true]
      simpa [cacheDelete] using ih
    · have hb : (a.1 != k) = true := by simp [bne_iff_ne, h]
      have hbeq : (a.1 == k) = false := by simpa using h
      simp only [cacheDelete, List.filter_cons, hb, if_true]
      simp only [cacheFind, List.find?_cons, hbeq]
      exact ih

/-- C8: `getCachedProfile` never returns a snapshot whose stored expiry
has passed: a returned snapshot always comes from an entry with
`now ≤ expiresAt`, and an entry whose `expiresAt` is earlier than the
current time makes the lookup return absent and removes the entry from the
cache. -/
theorem getCachedProfile_never_stale (c : List (String × CacheEntry))
    (k : String) (now : Int) :
    (∀ prof, (getCachedProfile c k now).2 = some prof →
      ∃ e, cacheFind c k = some e ∧ prof = e.profile ∧ ¬ e.expiresAt < now) ∧
    (∀ e, cacheFind c k = some e → e.expiresAt < now →
      (getCachedProfile c k now).2 = none ∧
      (getCachedProfile c k now).1 = cacheDelete c k ∧
      cacheFind (getCachedProfile c k now).1 k = none) := by
  constructor
  · intro prof hp
    cases hfind : cacheFind c k with
    | none => simp [getCachedProfile, hfind] at hp
    | some e =>
      by_cases hexp : e.expiresAt < now
      · simp [getCachedProfile, hfind, hexp] at hp
      · simp [getCachedProfile, hfind, hexp] at hp
        exact ⟨e, rfl, hp.symm, hexp⟩
  · intro e hfind hexp
    refine ⟨?_, ?_, ?_⟩ <;>
      simp [getCachedProfile, hfind, hexp, cacheFind_cacheDelete]

/-- Witness for `getCachedProfile_never_stale`: looking up the single
entry of `cacheOne` (expiry 5) at time 10 returns absent, and the entry is
gone from the resulting cache. -/
theorem getCachedProfile_never_stale_witness :
    (getCachedProfile cacheOne "u" 10).2 = none ∧
    (getCachedProfile cacheOne "u" 10).1 = cacheDelete cacheOne "u" ∧
    cacheFind (getCachedProfile cacheOne "u" 10).1 "u" = none :=
  (getCachedProfile_never_stale cacheOne "u" 10).2
    { profile := pFull, expiresAt := 5 } rfl (by decide)
